import Mathlib

/-!
Shallow embedding of the ufmt core: the configuration resolver
(`src/ufmt/config.py`) and the file pipeline (`src/ufmt/core.py`).
External collaborators (black, usort, trailrunner, tomlkit, moreorless)
are modelled as abstract function fields of environment structures, per
the interfaces the core uses.
-/

namespace Ufmt

/-- Python runtime values as they occur in parsed TOML configuration and in
the option mappings the core manipulates.  `table` models a dict,
`tuple` a Python tuple (the parenthesised-with-trailing-comma expressions in
`_make_black_config` produce tuples), `pySet` a Python set. -/
inductive PyVal where
  | str (s : String)
  | int (n : Int)
  | bool (b : Bool)
  | list (xs : List PyVal)
  | tuple (xs : List PyVal)
  | pySet (xs : List PyVal)
  | table (kvs : List (String × PyVal))
  | none

/-- Structural equality test on `PyVal` (Python `==` restricted to the value
shapes above). -/
def PyVal.beq : PyVal → PyVal → Bool
  | .str a, .str b => a == b
  | .int a, .int b => a == b
  | .bool a, .bool b => a == b
  | .list xs, .list ys => beqList xs ys
  | .tuple xs, .tuple ys => beqList xs ys
  | .pySet xs, .pySet ys => beqList xs ys
  | .table xs, .table ys => beqKVs xs ys
  | .none, .none => true
  | _, _ => false
where
  beqList : List PyVal → List PyVal → Bool
    | [], [] => true
    | x :: xs, y :: ys => PyVal.beq x y && beqList xs ys
    | _, _ => false
  beqKVs : List (String × PyVal) → List (String × PyVal) → Bool
    | [], [] => true
    | (k1, v1) :: xs, (k2, v2) :: ys => k1 == k2 && PyVal.beq v1 v2 && beqKVs xs ys
    | _, _ => false

instance : BEq PyVal := ⟨PyVal.beq⟩

/-- Python truthiness (`bool(v)`): empty containers, empty strings, zero and
`None` are falsy; everything else, including any non-empty tuple, is truthy. -/
def pyTruthy : PyVal → Bool
  | .str s => !s.isEmpty
  | .int n => n != 0
  | .bool b => b
  | .list xs => !xs.isEmpty
  | .tuple xs => !xs.isEmpty
  | .pySet xs => !xs.isEmpty
  | .table kvs => !kvs.isEmpty
  | .none => false

/-- `d.get(k)` on an association-list dict (first binding wins; keys are
unique in a Python dict). -/
def dictGet (d : List (String × PyVal)) (k : String) : Option PyVal :=
  match d with
  | [] => Option.none
  | (k2, v) :: rest => if k2 = k then some v else dictGet rest k

/-- `d.pop(k, dflt)`: the popped value (or the default) together with the
dict with key `k` removed. -/
def dictPop (d : List (String × PyVal)) (k : String) (dflt : PyVal) :
    PyVal × List (String × PyVal) :=
  ((dictGet d k).getD dflt, d.filter (fun kv => kv.1 ≠ k))

/-- `d[k] = v`: replace in place when the key exists (keys are unique in
a Python dict), append at the end otherwise (Python 3.7+ dict
insertion-order semantics). -/
def dictSet (d : List (String × PyVal)) (k : String) (v : PyVal) :
    List (String × PyVal) :=
  match d with
  | [] => [(k, v)]
  | (k2, w) :: rest => if k2 = k then (k, v) :: rest else (k2, w) :: dictSet rest k v

/-- `set(v)` as applied in `_make_black_config` to the popped
`target_version` value, whose default is the empty list.  Python's `set`
deduplicates; iteration of a non-iterable raises and is outside the paths
the configuration data can reach here. -/
def pySetOf : PyVal → PyVal
  | .list xs => .pySet xs.eraseDups
  | .tuple xs => .pySet xs.eraseDups
  | .pySet xs => .pySet xs
  | _ => .pySet []

/-- The ASCII single-quote character used by Python `repr` of strings. -/
def quoteChar : String := String.singleton (Char.ofNat 39)

/-- Python `repr(v)` for the value shapes above (string elements are
quoted, containers bracketed, `True`/`False`/`None` capitalised). -/
def pyRepr : PyVal → String
  | .str s => quoteChar ++ s ++ quoteChar
  | .int n => toString n
  | .bool b => if b then "True" else "False"
  | .list xs => "[" ++ reprJoin xs ++ "]"
  | .tuple [x] => "(" ++ pyRepr x ++ ",)"
  | .tuple xs => "(" ++ reprJoin xs ++ ")"
  | .pySet xs => if xs.isEmpty then "set()" else "\x7b" ++ reprJoin xs ++ "\x7d"
  | .table kvs => "\x7b" ++ reprJoinKVs kvs ++ "\x7d"
  | .none => "None"
where
  reprJoin : List PyVal → String
    | [] => ""
    | [x] => pyRepr x
    | x :: y :: xs => pyRepr x ++ ", " ++ reprJoin (y :: xs)
  reprJoinKVs : List (String × PyVal) → String
    | [] => ""
    | [(k, v)] => quoteChar ++ k ++ quoteChar ++ ": " ++ pyRepr v
    | (k, v) :: x :: xs =>
        quoteChar ++ k ++ quoteChar ++ ": " ++ pyRepr v ++ ", " ++ reprJoinKVs (x :: xs)

/-- Python `str(v)`: the string itself for strings, `repr` otherwise
(which coincides with `str` on ints, bools, `None` and containers). -/
def pyStr : PyVal → String
  | .str s => s
  | v => pyRepr v

/-! ## Configuration resolver (`src/ufmt/config.py`) -/

/-- The `UfmtConfig` dataclass: all fields default to absent/empty. -/
structure UfmtConfig where
  project_root : Option String := Option.none
  pyproject_path : Option String := Option.none
  excludes : List String := []
  deriving DecidableEq, Repr

/-- The Python exceptions `ufmt_config` can raise: the explicit
`ValueError` for a malformed `excludes`, and the `AttributeError` Python
raises when `.get` is called on the non-dict value of a `tool` key. -/
inductive PyErr where
  | valueError (msg : String)
  | attributeError (msg : String)
  deriving DecidableEq, Repr

/-- The two `LOG.warning` calls in `ufmt_config`, modelled as data. -/
inductive LogMsg where
  | notMapping (path : String)
  | unknownKeys (path : String) (keys : List String)
  deriving DecidableEq, Repr

/-- External collaborators of `ufmt_config`: the working directory, the
project-root detection (`trailrunner.project_root`), the filesystem
`is_file` test, and `tomlkit.loads(path.read_text())` composed into one
reading/parsing function returning the top-level TOML table. -/
structure ConfigEnv where
  cwd : String
  projectRoot : String → String
  isFile : String → Bool
  readPyproject : String → List (String × PyVal)

/-- `v.get(k, dflt)`: dict lookup when `v` is a dict, `AttributeError`
otherwise (strings, lists, ints have no `.get` method). -/
def pyGetOr (v : PyVal) (k : String) (dflt : PyVal) : Except PyErr PyVal :=
  match v with
  | .table kvs => .ok ((dictGet kvs k).getD dflt)
  | _ => .error (.attributeError "get")

/-- `isinstance(v, Sequence) and not isinstance(v, str)`: of the value
shapes reachable here, exactly lists and tuples are non-string sequences
(a dict, a set, an int, a bool or a string is not). -/
def isSeqNotStr : PyVal → Bool
  | .list _ => true
  | .tuple _ => true
  | _ => false

/-- The elements of a non-string sequence value. -/
def pySeqElems : PyVal → List PyVal
  | .list xs => xs
  | .tuple xs => xs
  | _ => []

/-- Insert a string into a `≤`-sorted list, keeping it sorted. -/
def insertSorted (s : String) : List String → List String
  | [] => [s]
  | t :: ts => if s ≤ t then s :: t :: ts else t :: insertSorted s ts

/-- `sorted(·)` on a list of strings (insertion sort). -/
def sortStrings : List String → List String
  | [] => []
  | s :: ss => insertSorted s (sortStrings ss)

/-- `ufmt_config(path)`: resolve the project root, read `pyproject.toml`
under it when present, extract `tool.ufmt`, validate and pop `excludes`,
warn about leftover keys, and assemble a `UfmtConfig`.  Raised exceptions
become `Except.error`; emitted warnings are returned alongside the
result. -/
def ufmt_config (env : ConfigEnv) (path : Option String := Option.none) :
    Except PyErr (UfmtConfig × List LogMsg) :=
  let path := path.getD env.cwd
  let root := env.projectRoot path
  let config_path := root ++ "/pyproject.toml"
  if env.isFile config_path then
    let pyproject := env.readPyproject config_path
    let toolVal := (dictGet pyproject "tool").getD (.table [])
    match pyGetOr toolVal "ufmt" (.table []) with
    | .error e => .error e
    | .ok config0 =>
      let (config, warns0) :=
        match config0 with
        | .table kvs => (kvs, ([] : List LogMsg))
        | _ => ([], [LogMsg.notMapping config_path])
      let (config_excludes, config) := dictPop config "excludes" (.list [])
      if isSeqNotStr config_excludes then
        let excludes := (pySeqElems config_excludes).map pyStr
        let warns1 :=
          if !config.isEmpty then
            warns0 ++ [LogMsg.unknownKeys config_path (sortStrings (config.map Prod.fst))]
          else warns0
        .ok ({ project_root := some root, pyproject_path := some config_path,
               excludes := excludes }, warns1)
      else
        .error (.valueError (config_path ++ ": excludes must be a list of strings"))
  else
    .ok ({}, [])

/-! ## File pipeline (`src/ufmt/core.py`) -/

/-- usort's `Config`, an opaque external value. -/
structure UsortConfig where
  tag : Nat := 0
  deriving DecidableEq, Repr

/-- black's `Mode`, modelled by the keyword-argument mapping it is
constructed from (`Mode()` is the empty mapping: every field takes its
default). -/
structure Mode where
  kwargs : List (String × PyVal) := []

/-- Outcomes of black's `format_file_contents` other than success: the
`NothingChanged` signal, or any other exception, which propagates. -/
inductive BlackErr where
  | nothingChanged
  | other (msg : String)
  deriving DecidableEq, Repr

/-- External collaborators of the file pipeline: usort
(`Config.find`, `usort_string`), black (`format_file_contents`,
`find_pyproject_toml`, `parse_pyproject_toml`, the `Mode` dataclass field
names, `decode_bytes`), the filesystem read, and moreorless's
`unified_diff`. -/
structure CoreEnv where
  usortFind : String → UsortConfig
  usortString : String → UsortConfig → String → String
  blackFormat : String → Mode → Except BlackErr String
  findPyprojectToml : String → Option String
  parsePyprojectToml : String → List (String × PyVal)
  modeFields : List String
  readBytes : String → List Nat
  decodeBytes : List Nat → String × String × String
  unifiedDiff : String → String → String → String

/-- `ufmt_string(path, content, usort_config, black_config)`: run usort,
then black; black's `NothingChanged` is caught and the usort output is
returned unchanged, while any other black exception propagates. -/
def ufmt_string (env : CoreEnv) (path : String) (content : String)
    (usort_config : UsortConfig) (black_config : Option Mode := Option.none) :
    Except BlackErr String :=
  let content := env.usortString content usort_config path
  match env.blackFormat content (black_config.getD {}) with
  | .ok c => .ok c
  | .error .nothingChanged => .ok content
  | .error e => .error e

/-- The option translation inside `_make_black_config` (core.py lines
62–75): pop `target_version` into a `target_versions` set, pop the two
`skip_*` booleans, then keep only keys among the `Mode` dataclass field
names (`names`).  The source's patched right-hand sides are parenthesised
expressions ending in a trailing comma, so the `string_normalization` and
`magic_trailing_comma` values are 1-tuples containing the negated
boolean, not booleans.  The returned mapping is what `Mode(**config)`
receives. -/
def black_options (config : List (String × PyVal)) (names : List String) :
    List (String × PyVal) :=
  let (tv, config) := dictPop config "target_version" (.list [])
  let config := dictSet config "target_versions" (pySetOf tv)
  let (ssn, config) := dictPop config "skip_string_normalization" (.bool false)
  let config := dictSet config "string_normalization" (.tuple [.bool (!pyTruthy ssn)])
  let (smtc, config) := dictPop config "skip_magic_trailing_comma" (.bool false)
  let config := dictSet config "magic_trailing_comma" (.tuple [.bool (!pyTruthy smtc)])
  config.filter (fun kv => names.contains kv.1)

/-- `_make_black_config(path)`: find the nearest `pyproject.toml` via
black's lookup; `Mode()` when none, otherwise parse it and build `Mode`
from the translated, filtered option mapping. -/
def _make_black_config (env : CoreEnv) (path : String) : Mode :=
  match env.findPyprojectToml path with
  | Option.none => {}
  | some config_file =>
      ⟨black_options (env.parsePyprojectToml config_file) env.modeFields⟩

/-- The `Result` dataclass of core.py. -/
structure Result where
  path : String
  changed : Bool := false
  written : Bool := false
  diff : Option String := Option.none
  deriving DecidableEq, Repr

/-- The single write-back `ufmt_file` may perform:
`open(path, "w", encoding=encoding, newline=newline)` and
`f.write(dst_contents)`, recorded as data. -/
structure WriteEvent where
  path : String
  content : String
  encoding : String
  newline : String
  deriving DecidableEq, Repr

/-- `ufmt_file(path, dry_run, diff)`: resolve the two configurations,
read and decode the file, run `ufmt_string`, and on change optionally
attach a diff and write back with the detected encoding and newline.
The returned pair is the `Result` and the write event, if any. -/
def ufmt_file (env : CoreEnv) (path : String) (dry_run : Bool := false)
    (diff : Bool := false) : Except BlackErr (Result × Option WriteEvent) :=
  let usort_config := env.usortFind path
  let black_config := _make_black_config env path
  let (src_contents, encoding, newline) := env.decodeBytes (env.readBytes path)
  match ufmt_string env path src_contents usort_config (some black_config) with
  | .error e => .error e
  | .ok dst_contents =>
    if src_contents ≠ dst_contents then
      let d := if diff then some (env.unifiedDiff src_contents dst_contents path)
               else Option.none
      if !dry_run then
        .ok ({ path, changed := true, written := true, diff := d },
             some { path, content := dst_contents, encoding, newline })
      else
        .ok ({ path, changed := true, written := false, diff := d }, Option.none)
    else
      .ok ({ path }, Option.none)

/-- Apply the optional write event to a byte-level filesystem, using the
abstract text encoder (the write direction matching `decodeBytes`). -/
def commit (encode : String → String → String → List Nat)
    (fs : String → List Nat) (w : Option WriteEvent) : String → List Nat :=
  match w with
  | Option.none => fs
  | some e => fun p => if p = e.path then encode e.content e.encoding e.newline else fs p

/-! ## Concrete collaborator instances used to exercise the theorems -/

/-- A concrete instance of black's `Mode` dataclass field names, as in
the black releases contemporary with this code; the three translated
keys are among them. -/
def modeFieldNames : List String :=
  ["target_versions", "line_length", "string_normalization",
   "magic_trailing_comma", "is_pyi", "experimental_string_processing"]

/-- A configuration environment whose root detection always yields
`root`, whose `pyproject.toml` exists and parses to `pyproject`. -/
def cfgEnvOf (root : String) (pyproject : List (String × PyVal)) : ConfigEnv :=
  { cwd := root, projectRoot := fun _ => root, isFile := fun _ => true,
    readPyproject := fun _ => pyproject }

/-- A configuration environment with no `pyproject.toml` anywhere. -/
def cfgEnvBare : ConfigEnv :=
  { cwd := "/proj", projectRoot := fun _ => "/proj", isFile := fun _ => false,
    readPyproject := fun _ => [] }

/-- A parsed `pyproject.toml` whose `tool.ufmt.excludes` is a bare string. -/
def pyprojBadExcludes : List (String × PyVal) :=
  [("tool", .table [("ufmt", .table [("excludes", .str "a.py")])])]

/-- A parsed `pyproject.toml` with an unrecognized `tool.ufmt` key `foo`
alongside a valid `excludes` list. -/
def pyprojUnknownKey : List (String × PyVal) :=
  [("tool", .table [("ufmt", .table
      [("foo", .int 1),
       ("excludes", .list [.str "a.py", .str "b.py"])])])]

/-- A pipeline environment whose style transform rewrites everything to
`"formatted"`, over a one-byte file decoding to `"a"`. -/
def envChg : CoreEnv :=
  { usortFind := fun _ => {}, usortString := fun s _ _ => s,
    blackFormat := fun _ _ => .ok "formatted",
    findPyprojectToml := fun _ => Option.none,
    parsePyprojectToml := fun _ => [], modeFields := modeFieldNames,
    readBytes := fun _ => [97], decodeBytes := fun _ => ("a", "utf-8", "\n"),
    unifiedDiff := fun _ _ _ => "--- diff" }

/-- Like `envChg`, but the file decodes with a non-default encoding and
CRLF newlines. -/
def envCrlf : CoreEnv :=
  { usortFind := fun _ => {}, usortString := fun s _ _ => s,
    blackFormat := fun _ _ => .ok "formatted",
    findPyprojectToml := fun _ => Option.none,
    parsePyprojectToml := fun _ => [], modeFields := modeFieldNames,
    readBytes := fun _ => [97], decodeBytes := fun _ => ("a", "latin-1", "\r\n"),
    unifiedDiff := fun _ _ _ => "--- diff" }

/-- A pipeline environment where usort is the identity and the style
transform raises `NothingChanged`. -/
def envId : CoreEnv :=
  { usortFind := fun _ => {}, usortString := fun s _ _ => s,
    blackFormat := fun _ _ => .error .nothingChanged,
    findPyprojectToml := fun _ => Option.none,
    parsePyprojectToml := fun _ => [], modeFields := modeFieldNames,
    readBytes := fun _ => [97], decodeBytes := fun _ => ("a", "utf-8", "\r\n"),
    unifiedDiff := fun _ _ _ => "--- diff" }

/-- The `Result` of a changing run over `envChg`/`envCrlf`, with the
given diff field. -/
def resChg (d : Option String) : Result :=
  { path := "f.py", changed := true, written := true, diff := d }

/-- The write event of a changing run, with the given encoding and
newline. -/
def wevChg (enc nl : String) : WriteEvent :=
  { path := "f.py", content := "formatted", encoding := enc, newline := nl }

/-- Like `envId`, but the style transform returns its input unchanged
instead of raising `NothingChanged`. -/
def envIdOk : CoreEnv :=
  { usortFind := fun _ => {}, usortString := fun s _ _ => s,
    blackFormat := fun s _ => .ok s,
    findPyprojectToml := fun _ => Option.none,
    parsePyprojectToml := fun _ => [], modeFields := modeFieldNames,
    readBytes := fun _ => [97], decodeBytes := fun _ => ("a", "utf-8", "\r\n"),
    unifiedDiff := fun _ _ _ => "--- diff" }

/-! ## Dictionary lemmas -/

theorem dictGet_dictSet_self (d : List (String × PyVal)) (k : String) (v : PyVal) :
    dictGet (dictSet d k v) k = some v := by
  induction d with
  | nil => simp [dictSet, dictGet]
  | cons hd tl ih =>
      obtain ⟨k2, w⟩ := hd
      by_cases h : k2 = k <;> simp [dictSet, dictGet, h, ih]

theorem dictGet_dictSet_ne (d : List (String × PyVal)) (k : String) (v : PyVal)
    (k2 : String) (h : k2 ≠ k) :
    dictGet (dictSet d k v) k2 = dictGet d k2 := by
  induction d with
  | nil => simp [dictSet, dictGet, Ne.symm h]
  | cons hd tl ih =>
      obtain ⟨k3, w⟩ := hd
      by_cases hk : k3 = k
      · subst hk
        simp [dictSet, dictGet, Ne.symm h]
      · by_cases hk2 : k3 = k2 <;> simp [dictSet, dictGet, hk, hk2, h, ih]

theorem dictGet_filter_key_ne (d : List (String × PyVal)) (k : String)
    (k2 : String) (h : k2 ≠ k) :
    dictGet (d.filter (fun kv => kv.1 ≠ k)) k2 = dictGet d k2 := by
  induction d with
  | nil => simp [dictGet]
  | cons hd tl ih =>
      obtain ⟨k3, w⟩ := hd
      by_cases hk : k3 = k
      · subst hk
        simp only [ne_eq, decide_not] at ih ⊢
        simp [List.filter_cons, dictGet, Ne.symm h, ih]
      · by_cases hk2 : k3 = k2 <;>
          · simp only [ne_eq, decide_not] at ih ⊢
            simp [List.filter_cons, dictGet, hk, hk2, h, ih]

theorem dictGet_filter_contains (d : List (String × PyVal)) (names : List String)
    (k : String) (h : k ∈ names) :
    dictGet (d.filter (fun kv => decide (kv.1 ∈ names))) k = dictGet d k := by
  induction d with
  | nil => simp [dictGet]
  | cons hd tl ih =>
      obtain ⟨k2, w⟩ := hd
      by_cases hk : k2 = k
      · subst hk
        simp [List.filter_cons, dictGet, h]
      · by_cases hc : k2 ∈ names <;>
          simp [List.filter_cons, dictGet, hk, hc, ih]

/-! ## Claim theorems -/

/-- C1: the spec says the two `skip_*` booleans invert into *boolean*
options (skip = true giving a falsy value).  In the code the patched
right-hand sides are parenthesised expressions with a trailing comma,
i.e. 1-tuples: with `skip_string_normalization = true` and
`skip_magic_trailing_comma = true` in the configuration file, the values
passed for `string_normalization` and `magic_trailing_comma` are the
tuple `(False,)`, which is truthy, not the falsy boolean `False`. -/
theorem c1_skip_flags_become_truthy_tuples :
    dictGet (black_options [("skip_string_normalization", PyVal.bool true),
        ("skip_magic_trailing_comma", PyVal.bool true)] modeFieldNames)
        "string_normalization" = some (.tuple [.bool false])
    ∧ dictGet (black_options [("skip_string_normalization", PyVal.bool true),
        ("skip_magic_trailing_comma", PyVal.bool true)] modeFieldNames)
        "magic_trailing_comma" = some (.tuple [.bool false])
    ∧ pyTruthy (.tuple [.bool false]) = true :=
  ⟨rfl, rfl, rfl⟩

/-- C10: for every parsed style configuration and every set of `Mode`
field names containing the three translated keys, the mapping passed to
the `Mode` constructor binds `target_versions` to the set of the popped
`target_version` value (the empty set when that key is absent), binds
the two patched keys, and contains no key outside the field names. -/
theorem c10_translated_option_mapping (config : List (String × PyVal))
    (names : List String)
    (h1 : "target_versions" ∈ names)
    (h2 : "string_normalization" ∈ names)
    (h3 : "magic_trailing_comma" ∈ names) :
    dictGet (black_options config names) "target_versions"
      = some (pySetOf ((dictGet config "target_version").getD (.list [])))
    ∧ dictGet (black_options config names) "string_normalization"
      = some (.tuple [.bool
          (!pyTruthy ((dictGet config "skip_string_normalization").getD (.bool false)))])
    ∧ dictGet (black_options config names) "magic_trailing_comma"
      = some (.tuple [.bool
          (!pyTruthy ((dictGet config "skip_magic_trailing_comma").getD (.bool false)))])
    ∧ (∀ kv ∈ black_options config names, kv.1 ∈ names)
    ∧ (dictGet config "target_version" = Option.none →
        dictGet (black_options config names) "target_versions" = some (.pySet [])) := by
  have key1 : dictGet (black_options config names) "target_versions"
      = some (pySetOf ((dictGet config "target_version").getD (.list []))) := by
    simp only [black_options, dictPop, List.elem_eq_mem]
    rw [dictGet_filter_contains _ _ _ h1,
        dictGet_dictSet_ne _ _ _ _ (by decide),
        dictGet_filter_key_ne _ _ _ (by decide),
        dictGet_dictSet_ne _ _ _ _ (by decide),
        dictGet_filter_key_ne _ _ _ (by decide),
        dictGet_dictSet_self]
  refine ⟨key1, ?_, ?_, ?_, fun h => by rw [key1, h]; rfl⟩
  · simp only [black_options, dictPop, List.elem_eq_mem]
    rw [dictGet_filter_contains _ _ _ h2,
        dictGet_dictSet_ne _ _ _ _ (by decide),
        dictGet_filter_key_ne _ _ _ (by decide),
        dictGet_dictSet_self,
        dictGet_dictSet_ne _ _ _ _ (by decide),
        dictGet_filter_key_ne _ _ _ (by decide)]
  · simp only [black_options, dictPop, List.elem_eq_mem]
    rw [dictGet_filter_contains _ _ _ h3,
        dictGet_dictSet_self,
        dictGet_dictSet_ne _ _ _ _ (by decide),
        dictGet_filter_key_ne _ _ _ (by decide),
        dictGet_dictSet_ne _ _ _ _ (by decide),
        dictGet_filter_key_ne _ _ _ (by decide)]
  · intro kv hkv
    simp only [black_options, dictPop] at hkv
    have := List.of_mem_filter hkv
    simpa using this

/-- Witness for C10 at a configuration setting none of the three source
keys, with a concrete field-name list. -/
theorem c10_translated_option_mapping_witness :
    dictGet (black_options [("line_length", PyVal.int 87)] modeFieldNames)
        "target_versions" = some (.pySet []) :=
  (c10_translated_option_mapping [("line_length", PyVal.int 87)] modeFieldNames
      (by decide) (by decide) (by decide)).2.2.2.2 rfl

/-- C2 (counterexample): with no `pyproject.toml` under the computed
root `/proj`, `ufmt_config` returns the all-default `UfmtConfig`: its
`project_root` is `None`, not the computed root `/proj`, refuting the
claim that the returned `projectRoot` equals the computed root. -/
theorem c2_counterexample :
    ufmt_config cfgEnvBare (some "/proj/a.py")
      = .ok ({ project_root := Option.none, pyproject_path := Option.none,
               excludes := [] }, [])
    ∧ cfgEnvBare.projectRoot "/proj/a.py" = "/proj"
    ∧ ({ project_root := Option.none, pyproject_path := Option.none,
         excludes := [] } : UfmtConfig).project_root ≠ some "/proj" :=
  ⟨rfl, rfl, by simp⟩

/-- C2 (amended): for every start path whose computed project root
contains no `pyproject.toml`, `ufmt_config` returns the default
`UfmtConfig` — `project_root` absent, `pyproject_path` absent, empty
`excludes` — and emits no warning. -/
theorem c2_no_pyproject_default (env : ConfigEnv) (path : Option String)
    (h : env.isFile (env.projectRoot (path.getD env.cwd) ++ "/pyproject.toml") = false) :
    ufmt_config env path
      = .ok ({ project_root := Option.none, pyproject_path := Option.none,
               excludes := [] }, []) := by
  simp [ufmt_config, h]

/-- Witness for C2 (amended) at the concrete environment without a
configuration file. -/
theorem c2_no_pyproject_default_witness :
    ufmt_config cfgEnvBare (some "/proj/b.py")
      = .ok ({ project_root := Option.none, pyproject_path := Option.none,
               excludes := [] }, []) :=
  c2_no_pyproject_default cfgEnvBare (some "/proj/b.py") rfl

/-- C3: `ufmt_config` raises the `excludes must be a list of strings`
error, naming the configuration file, exactly when `tool.ufmt` contains
an `excludes` key whose value is not a non-string sequence; a list value
yields its elements coerced by `str`, and an absent key yields the empty
list without raising. -/
theorem c3_excludes_validation (root : String)
    (pyproject toolKvs tbl : List (String × PyVal))
    (htool : (dictGet pyproject "tool").getD (.table []) = .table toolKvs)
    (hufmt : (dictGet toolKvs "ufmt").getD (.table []) = .table tbl) :
    ((∃ v, dictGet tbl "excludes" = some v ∧ isSeqNotStr v = false) →
      ufmt_config (cfgEnvOf root pyproject) (some (root ++ "/a.py"))
        = .error (.valueError
            (root ++ "/pyproject.toml" ++ ": excludes must be a list of strings")))
    ∧ (∀ v, dictGet tbl "excludes" = some v → isSeqNotStr v = true →
      ∃ warns, ufmt_config (cfgEnvOf root pyproject) (some (root ++ "/a.py"))
        = .ok ({ project_root := some root,
                 pyproject_path := some (root ++ "/pyproject.toml"),
                 excludes := (pySeqElems v).map pyStr }, warns))
    ∧ (dictGet tbl "excludes" = Option.none →
      ∃ warns, ufmt_config (cfgEnvOf root pyproject) (some (root ++ "/a.py"))
        = .ok ({ project_root := some root,
                 pyproject_path := some (root ++ "/pyproject.toml"),
                 excludes := [] }, warns)) := by
  refine ⟨?_, ?_, ?_⟩
  · rintro ⟨v, hv, hseq⟩
    simp [ufmt_config, cfgEnvOf, pyGetOr, dictPop, htool, hufmt, hv, hseq]
  · intro v hv hseq
    by_cases hempty : (tbl.filter (fun kv => kv.1 ≠ "excludes")).isEmpty = true
    · refine ⟨[], ?_⟩
      simp [ufmt_config, cfgEnvOf, pyGetOr, dictPop, htool, hufmt, hv, hseq]
      simpa using hempty
    · refine ⟨[LogMsg.unknownKeys (root ++ "/pyproject.toml")
          (sortStrings ((tbl.filter (fun kv => kv.1 ≠ "excludes")).map Prod.fst))], ?_⟩
      simp [ufmt_config, cfgEnvOf, pyGetOr, dictPop, htool, hufmt, hv, hseq]
      simpa using hempty
  · intro hv
    by_cases hempty : (tbl.filter (fun kv => kv.1 ≠ "excludes")).isEmpty = true
    · refine ⟨[], ?_⟩
      simp [ufmt_config, cfgEnvOf, pyGetOr, dictPop, htool, hufmt, hv,
        isSeqNotStr, pySeqElems]
      simpa using hempty
    · refine ⟨[LogMsg.unknownKeys (root ++ "/pyproject.toml")
          (sortStrings ((tbl.filter (fun kv => kv.1 ≠ "excludes")).map Prod.fst))], ?_⟩
      simp [ufmt_config, cfgEnvOf, pyGetOr, dictPop, htool, hufmt, hv,
        isSeqNotStr, pySeqElems]
      simpa using hempty

/-- Witness for C3 at a configuration whose `excludes` is the bare
string `"a.py"`: `ufmt_config` raises the validation error naming the
file. -/
theorem c3_excludes_validation_witness :
    ufmt_config (cfgEnvOf "/proj" pyprojBadExcludes) (some ("/proj" ++ "/a.py"))
      = .error (.valueError
          ("/proj" ++ "/pyproject.toml" ++ ": excludes must be a list of strings")) :=
  (c3_excludes_validation "/proj" pyprojBadExcludes
      [("ufmt", .table [("excludes", .str "a.py")])]
      [("excludes", .str "a.py")] rfl rfl).1 ⟨.str "a.py", rfl, rfl⟩

/-- C9: with unrecognized keys alongside a valid `excludes` list,
`ufmt_config` succeeds, returns the coerced exclude patterns, and emits
one warning listing the leftover keys sorted. -/
theorem c9_unknown_keys_warn (root : String)
    (pyproject toolKvs tbl : List (String × PyVal)) (xs : List PyVal)
    (htool : (dictGet pyproject "tool").getD (.table []) = .table toolKvs)
    (hufmt : (dictGet toolKvs "ufmt").getD (.table []) = .table tbl)
    (hx : dictGet tbl "excludes" = some (.list xs))
    (hrest : tbl.filter (fun kv => kv.1 ≠ "excludes") ≠ []) :
    ufmt_config (cfgEnvOf root pyproject) (some (root ++ "/a.py"))
      = .ok ({ project_root := some root,
               pyproject_path := some (root ++ "/pyproject.toml"),
               excludes := xs.map pyStr },
             [LogMsg.unknownKeys (root ++ "/pyproject.toml")
                (sortStrings ((tbl.filter (fun kv => kv.1 ≠ "excludes")).map Prod.fst))]) := by
  obtain ⟨⟨k, v⟩, hkv⟩ := List.exists_mem_of_ne_nil _ hrest
  have hmem := List.mem_of_mem_filter hkv
  have hpred : k ≠ "excludes" := by simpa using List.of_mem_filter hkv
  simp [ufmt_config, cfgEnvOf, pyGetOr, dictPop, htool, hufmt, hx,
    isSeqNotStr, pySeqElems]
  exact ⟨k, ⟨v, hmem⟩, hpred⟩

/-- Witness for C9 at `foo = 1` alongside `excludes = ["a.py", "b.py"]`. -/
theorem c9_unknown_keys_warn_witness :
    ufmt_config (cfgEnvOf "/proj" pyprojUnknownKey) (some ("/proj" ++ "/a.py"))
      = .ok ({ project_root := some "/proj",
               pyproject_path := some ("/proj" ++ "/pyproject.toml"),
               excludes := ["a.py", "b.py"] },
             [LogMsg.unknownKeys ("/proj" ++ "/pyproject.toml") ["foo"]]) :=
  c9_unknown_keys_warn "/proj" pyprojUnknownKey
    [("ufmt", .table [("foo", .int 1), ("excludes", .list [.str "a.py", .str "b.py"])])]
    [("foo", .int 1), ("excludes", .list [.str "a.py", .str "b.py"])]
    [.str "a.py", .str "b.py"] rfl rfl rfl (List.cons_ne_nil _ _)

/-- Case analysis on a successful `ufmt_file` run: either the text was
unchanged and the result is all defaults with no write, or it changed
and the flags, diff and write event are as the source sets them. -/
theorem ufmt_file_spec (env : CoreEnv) (path : String) (dry_run diff : Bool)
    (r : Result) (w : Option WriteEvent)
    (h : ufmt_file env path dry_run diff = .ok (r, w)) :
    (r = { path := path } ∧ w = Option.none)
    ∨ (r.path = path ∧ r.changed = true ∧ r.written = !dry_run
       ∧ r.diff.isSome = diff
       ∧ (dry_run = true → w = Option.none)
       ∧ (dry_run = false → ∃ c, w = some (WriteEvent.mk path c
             ((env.decodeBytes (env.readBytes path)).2.1)
             ((env.decodeBytes (env.readBytes path)).2.2)))) := by
  rcases hdec : env.decodeBytes (env.readBytes path) with ⟨src, enc, nl⟩
  simp only [ufmt_file, hdec] at h
  simp only [hdec]
  rcases hu : ufmt_string env path src (env.usortFind path)
      (some (_make_black_config env path)) with e | dst
  · rw [hu] at h
    cases h
  · rw [hu] at h
    by_cases hne : src = dst
    · left
      simp [hne] at h
      obtain ⟨h1, h2⟩ := h
      subst h1
      subst h2
      exact ⟨rfl, rfl⟩
    · right
      cases hdr : dry_run
      · simp [hne, hdr] at h
        obtain ⟨h1, h2⟩ := h
        subst h1
        subst h2
        refine ⟨rfl, rfl, rfl, ?_, ?_, fun _ => ⟨dst, rfl⟩⟩
        · cases diff <;> rfl
        · intro hcontra
          cases hcontra
      · simp [hne, hdr] at h
        obtain ⟨h1, h2⟩ := h
        subst h1
        subst h2
        refine ⟨rfl, rfl, rfl, ?_, fun _ => rfl, ?_⟩
        · cases diff <;> rfl
        · intro hcontra
          cases hcontra

/-- C4: for every file processed by `ufmt_file`, `written = true`
implies `changed = true`, and `dry_run = true` implies
`written = false`. -/
theorem c4_written_changed_dry_run (env : CoreEnv) (path : String)
    (dry_run diff : Bool) (r : Result) (w : Option WriteEvent)
    (h : ufmt_file env path dry_run diff = .ok (r, w)) :
    (r.written = true → r.changed = true) ∧ (dry_run = true → r.written = false) := by
  rcases ufmt_file_spec env path dry_run diff r w h with ⟨hr, _⟩ | ⟨_, hc, hw, _⟩
  · subst hr
    simp
  · refine ⟨fun _ => hc, fun hd => ?_⟩
    rw [hw, hd]
    rfl

/-- Witness for C4 at a concrete changing file without dry-run. -/
theorem c4_written_changed_dry_run_witness :
    ((resChg Option.none).written = true → (resChg Option.none).changed = true)
    ∧ (false = true → (resChg Option.none).written = false) :=
  c4_written_changed_dry_run envChg "f.py" false false (resChg Option.none)
    (some (wevChg "utf-8" "\n")) rfl

/-- C5: the returned diff is present exactly when the diff flag was set
and the content changed. -/
theorem c5_diff_iff_requested_and_changed (env : CoreEnv) (path : String)
    (dry_run diff : Bool) (r : Result) (w : Option WriteEvent)
    (h : ufmt_file env path dry_run diff = .ok (r, w)) :
    r.diff.isSome = true ↔ (diff = true ∧ r.changed = true) := by
  rcases ufmt_file_spec env path dry_run diff r w h with ⟨hr, _⟩ | ⟨_, hc, _, hd, _⟩
  · subst hr
    simp
  · rw [hd, hc]
    exact ⟨fun h2 => ⟨h2, rfl⟩, fun h2 => h2.1⟩

/-- Witness for C5 at a concrete changing file with the diff flag set. -/
theorem c5_diff_iff_requested_and_changed_witness :
    ((resChg (some "--- diff")).diff.isSome = true
      ↔ (true = true ∧ (resChg (some "--- diff")).changed = true)) :=
  c5_diff_iff_requested_and_changed envChg "f.py" false true
    (resChg (some "--- diff")) (some (wevChg "utf-8" "\n")) rfl

/-- C6: when the sort-then-style transformation leaves the decoded text
unchanged, `ufmt_file` reports `changed = false`, `written = false`, no
diff, performs no write, and the filesystem is untouched. -/
theorem c6_unchanged_untouched (env : CoreEnv) (path : String) (dry_run diff : Bool)
    (h : ufmt_string env path (env.decodeBytes (env.readBytes path)).1
        (env.usortFind path) (some (_make_black_config env path))
        = .ok (env.decodeBytes (env.readBytes path)).1) :
    ufmt_file env path dry_run diff = .ok ({ path := path }, Option.none)
    ∧ (∀ encode fs, commit encode fs Option.none = fs) := by
  refine ⟨?_, fun encode fs => rfl⟩
  rcases hdec : env.decodeBytes (env.readBytes path) with ⟨src, enc, nl⟩
  rw [hdec] at h
  simp only [ufmt_file, hdec]
  simp only [] at h
  simp [h]

/-- Witness for C6 at a concrete already-canonical file. -/
theorem c6_unchanged_untouched_witness :
    (ufmt_file envId "f.py" false false = .ok ({ path := "f.py" }, Option.none))
    ∧ (∀ encode fs, commit encode fs Option.none = fs) :=
  c6_unchanged_untouched envId "f.py" false false rfl

/-- C7: every write event carries exactly the encoding and newline that
`decode_bytes` detected when the file was read, and targets the same
path. -/
theorem c7_write_detected_encoding_newline (env : CoreEnv) (path : String)
    (dry_run diff : Bool) (r : Result) (e : WriteEvent)
    (h : ufmt_file env path dry_run diff = .ok (r, some e)) :
    e.encoding = (env.decodeBytes (env.readBytes path)).2.1
    ∧ e.newline = (env.decodeBytes (env.readBytes path)).2.2
    ∧ e.path = path := by
  rcases ufmt_file_spec env path dry_run diff r (some e) h
      with ⟨_, hw⟩ | ⟨_, _, _, _, hnw, hsw⟩
  · cases hw
  · cases hdr : dry_run
    · obtain ⟨c, hc⟩ := hsw hdr
      injection hc with hc
      rw [hc]
      exact ⟨rfl, rfl, rfl⟩
    · cases hnw hdr

/-- Witness for C7 at a CRLF, latin-1 file that gets rewritten. -/
theorem c7_write_detected_encoding_newline_witness :
    (wevChg "latin-1" "\r\n").encoding
        = (envCrlf.decodeBytes (envCrlf.readBytes "f.py")).2.1
    ∧ (wevChg "latin-1" "\r\n").newline
        = (envCrlf.decodeBytes (envCrlf.readBytes "f.py")).2.2
    ∧ (wevChg "latin-1" "\r\n").path = "f.py" :=
  c7_write_detected_encoding_newline envCrlf "f.py" false false
    (resChg Option.none) (wevChg "latin-1" "\r\n") rfl

/-- C8: when the style transform raises `NothingChanged`, `ufmt_string`
returns the usort output unchanged, and the outcome is identical to that
with a style transform returning its input unchanged. -/
theorem c8_nothing_changed_is_noop (e1 e2 : CoreEnv) (path content : String)
    (uc : UsortConfig) (bc : Option Mode)
    (hus : e2.usortString = e1.usortString)
    (h1 : e1.blackFormat (e1.usortString content uc path) (bc.getD {})
        = .error .nothingChanged)
    (h2 : e2.blackFormat (e2.usortString content uc path) (bc.getD {})
        = .ok (e2.usortString content uc path)) :
    ufmt_string e1 path content uc bc = .ok (e1.usortString content uc path)
    ∧ ufmt_string e1 path content uc bc = ufmt_string e2 path content uc bc := by
  rw [hus] at h2
  constructor
  · simp [ufmt_string, h1]
  · simp [ufmt_string, h1, h2, hus]

/-- Witness for C8: `envId` raises `NothingChanged` while `envIdOk`
returns its input; both give the same successful outcome. -/
theorem c8_nothing_changed_is_noop_witness :
    ufmt_string envId "f.py" "a" {} Option.none = .ok "a"
    ∧ ufmt_string envId "f.py" "a" {} Option.none
        = ufmt_string envIdOk "f.py" "a" {} Option.none :=
  c8_nothing_changed_is_noop envId envIdOk "f.py" "a" {} Option.none rfl rfl rfl

end Ufmt
